import Mathlib

/- Verification development for the trip-planning pipeline of
   3-langgraph/Assignments/02_Assignment: ai_travel_agent.py (the earlier
   variant, below suffix 1) and ai_travel_agent_2.py (the later variant,
   below suffix 2).

   Modelling conventions of this shallow embedding:
   - Python floats are modelled as rationals.
   - Calendar dates (YYYY-MM-DD strings parsed with strptime) are modelled
     as integer day ordinals, so that date subtraction in whole days is
     integer subtraction.
   - Each external interaction of a stage (web search plus language-model
     call plus JSON parse of the reply) is modelled by an oracle field:
     some payload when the whole try-block succeeds with that parsed
     payload, none when any exception was raised and caught.
   - Fallible code is modelled with Option / Except; an uncaught Python
     exception is a none result. -/

/-- JSON values as produced by json.loads.  Objects keep their member
order; the concrete inputs appearing in this file have no duplicate keys,
so the list representation agrees with a Python dict.  The non-standard
NaN and Infinity literals accepted by json.loads are not representable as
rationals and are not modelled; no input considered here contains them. -/
inductive Json where
  | null : Json
  | bool (b : Bool) : Json
  | num (q : ℚ) : Json
  | str (s : String) : Json
  | arr (elems : List Json) : Json
  | obj (members : List (String × Json)) : Json
  deriving Repr

/-- Whitespace characters skipped by json.loads: space, tab, newline and
carriage return. -/
def skipWs : List Char → List Char
  | c :: rest =>
    if c = ' ' ∨ c = '\t' ∨ c = '\n' ∨ c = '\r' then skipWs rest else c :: rest
  | [] => []

/-- Value of a hexadecimal digit, if the character is one. -/
def hexDigit (c : Char) : Option Nat :=
  if '0' ≤ c ∧ c ≤ '9' then some (c.toNat - 48)
  else if 'a' ≤ c ∧ c ≤ 'f' then some (c.toNat - 87)
  else if 'A' ≤ c ∧ c ≤ 'F' then some (c.toNat - 55)
  else none

/-- Single-character JSON string escapes. -/
def escapeChar (c : Char) : Option Char :=
  if c = '"' then some '"'
  else if c = '\\' then some '\\'
  else if c = '/' then some '/'
  else if c = 'b' then some (Char.ofNat 8)
  else if c = 'f' then some (Char.ofNat 12)
  else if c = 'n' then some '\n'
  else if c = 'r' then some '\r'
  else if c = 't' then some '\t'
  else none

/-- Body of a JSON string after the opening quote: decoded characters and
the rest of the input.  Strict mode, as json.loads: an unescaped control
character, an unknown escape or an unterminated string fails.  Combination
of uXXXX surrogate pairs is not modelled (no input here uses them). -/
def parseStringBody : List Char → Option (List Char × List Char)
  | [] => none
  | '"' :: rest => some ([], rest)
  | '\\' :: [] => none
  | '\\' :: e :: rest =>
    if e = 'u' then
      match rest with
      | h1 :: h2 :: h3 :: h4 :: rest4 =>
        match hexDigit h1, hexDigit h2, hexDigit h3, hexDigit h4 with
        | some d1, some d2, some d3, some d4 =>
          (parseStringBody rest4).map
            (fun p => (Char.ofNat (((d1 * 16 + d2) * 16 + d3) * 16 + d4) :: p.1, p.2))
        | _, _, _, _ => none
      | _ => none
    else
      match escapeChar e with
      | some ch => (parseStringBody rest).map (fun p => (ch :: p.1, p.2))
      | none => none
  | c :: rest =>
    if c.toNat < 32 then none
    else (parseStringBody rest).map (fun p => (c :: p.1, p.2))

/-- Longest prefix of decimal digits, as digit values. -/
def takeDigits : List Char → List Nat × List Char
  | c :: rest =>
    if c.isDigit then
      let p := takeDigits rest
      ((c.toNat - 48) :: p.1, p.2)
    else ([], c :: rest)
  | [] => ([], [])

/-- Natural number denoted by a list of digit values. -/
def digitsVal (ds : List Nat) : Nat := ds.foldl (fun a d => a * 10 + d) 0

/-- Fractional part of a JSON number (present only when a dot follows). -/
def parseFrac : List Char → Option (ℚ × List Char)
  | '.' :: r =>
    match takeDigits r with
    | ([], _) => none
    | (ds, r2) => some ((digitsVal ds : ℚ) / ((10 : ℚ) ^ ds.length), r2)
  | s => some (0, s)

/-- Exponent part of a JSON number, as a scale factor. -/
def parseExp : List Char → Option (ℚ × List Char)
  | c :: r =>
    if c = 'e' ∨ c = 'E' then
      let p : Bool × List Char :=
        match r with
        | '+' :: rr => (false, rr)
        | '-' :: rr => (true, rr)
        | _ => (false, r)
      match takeDigits p.2 with
      | ([], _) => none
      | (ds, r2) =>
        some (if p.1 then (1 : ℚ) / ((10 : ℚ) ^ digitsVal ds)
              else ((10 : ℚ) ^ digitsVal ds), r2)
    else some (1, c :: r)
  | [] => some (1, [])

/-- Strict JSON number (RFC 8259 grammar, as json.loads): optional minus,
integer part without a leading zero, optional fraction, optional
exponent.  json.loads yields a Python int when neither a fraction nor an
exponent is present and a float otherwise; both are rationals here, the
integer case built directly as an integer. -/
def parseNumber (s : List Char) : Option (ℚ × List Char) :=
  let p : Bool × List Char :=
    match s with
    | '-' :: r => (true, r)
    | _ => (false, s)
  match takeDigits p.2 with
  | ([], _) => none
  | (ds, s2) =>
    if 1 < ds.length ∧ ds.headD 0 = 0 then none
    else if s2.headD ' ' = '.' ∨ s2.headD ' ' = 'e' ∨ s2.headD ' ' = 'E' then
      match parseFrac s2 with
      | none => none
      | some (fr, s3) =>
        match parseExp s3 with
        | none => none
        | some (sc, s4) =>
          let mag : ℚ := ((digitsVal ds : ℚ) + fr) * sc
          some (if p.1 then -mag else mag, s4)
    else
      some (((if p.1 then -(digitsVal ds : ℤ) else (digitsVal ds : ℤ)) : ℚ), s2)

/-- One state of the recursive-descent JSON reader: about to read a value,
or inside an array or object holding the members read so far (reversed). -/
inductive PState where
  | value : List Char → PState
  | arrNext (acc : List Json) : List Char → PState
  | objNext (acc : List (String × Json)) : List Char → PState

/-- Fuel-driven recursive-descent reader behind jsonLoads.  Returns the
parsed value and the unconsumed rest of the input. -/
def pstep : Nat → PState → Option (Json × List Char)
  | 0, _ => none
  | Nat.succ fuel, PState.value s =>
    match skipWs s with
    | [] => none
    | c :: rest =>
      if c = '{' then
        match skipWs rest with
        | '}' :: r2 => some (Json.obj [], r2)
        | _ => pstep fuel (PState.objNext [] rest)
      else if c = '[' then
        match skipWs rest with
        | ']' :: r2 => some (Json.arr [], r2)
        | _ => pstep fuel (PState.arrNext [] rest)
      else if c = '"' then
        match parseStringBody rest with
        | some (cs, r2) => some (Json.str (String.mk cs), r2)
        | none => none
      else if c = 't' then
        match rest with
        | 'r' :: 'u' :: 'e' :: r2 => some (Json.bool true, r2)
        | _ => none
      else if c = 'f' then
        match rest with
        | 'a' :: 'l' :: 's' :: 'e' :: r2 => some (Json.bool false, r2)
        | _ => none
      else if c = 'n' then
        match rest with
        | 'u' :: 'l' :: 'l' :: r2 => some (Json.null, r2)
        | _ => none
      else
        match parseNumber (c :: rest) with
        | some (q, r2) => some (Json.num q, r2)
        | none => none
  | Nat.succ fuel, PState.arrNext acc s =>
    match pstep fuel (PState.value s) with
    | none => none
    | some (v, r) =>
      match skipWs r with
      | ',' :: r2 => pstep fuel (PState.arrNext (v :: acc) r2)
      | ']' :: r2 => some (Json.arr (v :: acc).reverse, r2)
      | _ => none
  | Nat.succ fuel, PState.objNext acc s =>
    match skipWs s with
    | '"' :: r =>
      match parseStringBody r with
      | none => none
      | some (cs, r2) =>
        match skipWs r2 with
        | ':' :: r3 =>
          match pstep fuel (PState.value r3) with
          | none => none
          | some (v, r4) =>
            match skipWs r4 with
            | ',' :: r5 => pstep fuel (PState.objNext ((String.mk cs, v) :: acc) r5)
            | '}' :: r5 => some (Json.obj ((String.mk cs, v) :: acc).reverse, r5)
            | _ => none
        | _ => none
    | _ => none
termination_by structural fuel _ => fuel

/-- json.loads: decode exactly one JSON document; anything but whitespace
after it is the Extra data error.  The fuel bound exceeds the number of
reader steps any input of this length can take. -/
def jsonLoads (s : List Char) : Except String Json :=
  match pstep (2 * s.length + 4) (PState.value s) with
  | none => Except.error "Expecting value"
  | some (v, rest) =>
    if skipWs rest = [] then Except.ok v
    else Except.error "Extra data"

/-- Expected top-level shape passed to the extractor (the expected_type
argument of the source function: dict or list). -/
inductive Shape where
  | objS : Shape
  | arrS : Shape
  deriving DecidableEq, Repr

/-- Failure taxonomy of the extractor, under the names the specification
gives the three failure modes.  In the source, noStructureFound and
malformedJSON surface as JSONDecodeError and unexpectedShape as
ValueError. -/
inductive ParseError where
  | noStructureFound : ParseError
  | malformedJSON (slice : String) : ParseError
  | unexpectedShape : ParseError
  deriving DecidableEq, Repr

/-- isinstance(parsed, expected_type) for expected_type dict or list. -/
def shapeMatches : Shape → Json → Bool
  | Shape.objS, Json.obj _ => true
  | Shape.arrS, Json.arr _ => true
  | _, _ => false

/-- str.find for one character: index of its first occurrence, if any. -/
def firstIdx (c : Char) : List Char → Option Nat
  | [] => none
  | x :: rest => if x = c then some 0 else (firstIdx c rest).map (fun i => i + 1)

/-- Lines 58-67 of ai_travel_agent_2.py: json_start, the earlier of the
first brace and the first bracket. -/
def jsonStart (s : List Char) : Option Nat :=
  match firstIdx '{' s, firstIdx '[' s with
  | some o, some a => some (min o a)
  | some o, none => some o
  | none, some a => some a
  | none, none => none

/-- The helper _parse_llm_json of ai_travel_agent_2.py (lines 50-81):
locate the first structural character, slice the text from there to the
end, strictly decode the slice, then check the top-level shape. -/
def parseLlmJson (text : List Char) (shape : Shape) : Except ParseError Json :=
  match jsonStart text with
  | none => Except.error ParseError.noStructureFound
  | some i =>
    let slice := text.drop i
    match jsonLoads slice with
    | Except.error _ => Except.error (ParseError.malformedJSON (String.mk slice))
    | Except.ok v =>
      if shapeMatches shape v then Except.ok v
      else Except.error ParseError.unexpectedShape

/-- Python round to an integer: round-half-to-even (banker's rounding).
Modelled exactly on rationals; the source applies it to binary floats,
whose value at the inputs appearing in this file rounds the same way. -/
def roundHalfEven (q : ℚ) : ℤ :=
  if q - ⌊q⌋ = 1 / 2 then (if 2 ∣ ⌊q⌋ then ⌊q⌋ else ⌊q⌋ + 1)
  else round q

/-- Python round(x, 2): round-half-to-even at two decimal places. -/
def round2 (q : ℚ) : ℚ := (roundHalfEven (q * 100) : ℚ) / 100

/-- The trip request.  In the source it is a plain dictionary (later
variant) or a dataclass copied into one (earlier variant); dates are
YYYY-MM-DD strings, modelled as integer day ordinals. -/
structure TripRequest where
  destination : String
  start_date : Int
  end_date : Int
  budget : ℚ
  currency : String
  travelers : Int
  preferences : List String
  deriving Repr, DecidableEq

/-- One forecast entry of the later variant's weather data. -/
structure ForecastDay2 where
  date : Int
  max_temp : ℚ
  deriving Repr, DecidableEq

/-- The later variant's weather_info dictionary. -/
structure WeatherInfo2 where
  current_temp : String
  forecast : List ForecastDay2
  recommendations : List String
  deriving Repr, DecidableEq

/-- An attraction or restaurant entry.  Of the keys such a parsed
dictionary may carry, the cost stages read only price; price is none when
the key is missing.  This typed record is the crash-free restriction of
the raw AttractionR defined further below: a present non-numeric price,
on which both variants' cost stages raise TypeError, is not representable
here and is modelled by the refined cost functions.  The earlier
variant's fallback entry also sets rating and location, which no later
stage reads. -/
structure Attraction where
  name : String
  description : String
  price : Option ℚ
  category : String
  deriving Repr, DecidableEq

/-- A hotel entry; price_per_night is none when the key is missing.  For
the later variant's cost stage none also covers a present non-numeric
value faithfully (its isinstance filter drops both); the earlier
variant's cost stage raises on either among the first three hotels, a
path the refined HotelR payloads below model.  Rating, amenities and
location are read by no stage and are not modelled. -/
structure Hotel where
  name : String
  price_per_night : Option ℚ
  deriving Repr, DecidableEq

/-- A day plan of the later variant's itinerary. -/
structure ItineraryDay2 where
  day : Int
  date : Int
  activities : List String
  meals : List String
  deriving Repr, DecidableEq

/-- The later variant's expenses dictionary (lines 210-218 of
ai_travel_agent_2.py).  Every monetary field is rounded to two decimals;
days is the clamped whole-day trip length. -/
structure Expenses2 where
  accommodation : ℚ
  food : ℚ
  transportation : ℚ
  activities : ℚ
  total : ℚ
  days : Int
  daily_budget : ℚ
  deriving Repr, DecidableEq

/-- The later variant's TravelState.  The initial empty dictionaries of
plan_trip are modelled by empty records; every owned field is written by
its stage before any later stage reads it, matching the static edge
order of the compiled graph. -/
structure TravelState2 where
  trip_request : TripRequest
  weather_info : WeatherInfo2
  attractions : List Attraction
  hotels : List Hotel
  expenses : Expenses2
  itinerary : List ItineraryDay2
  summary : String
  errors : List String
  deriving Repr, DecidableEq

/-- Outcomes of the later variant's external interactions: some parsed
payload when a stage's try-block succeeds, none when any exception was
raised inside it (provider error, model error, JSON parse error or
top-level type mismatch). -/
structure Oracle2 where
  weather : Option WeatherInfo2
  attractions : Option (List Attraction)
  hotels : Option (List Hotel)
  itinerary : Option (List ItineraryDay2)
  summary : Option String
  deriving Repr, DecidableEq

/-- Whole-day trip length of the later variant (line 198 of
ai_travel_agent_2.py): max(1, end - start). -/
def days2 (req : TripRequest) : Int := max 1 (req.end_date - req.start_date)

/-- The later variant's fallback weather data (line 141). -/
def fallbackWeather2 : WeatherInfo2 :=
  { current_temp := "N/A", forecast := [],
    recommendations := ["Weather data unavailable."] }

/-- WeatherAgent.execute of ai_travel_agent_2.py (lines 117-144).  The
geocoding fallback to Paris coordinates happens inside a successful
interaction and is absorbed by the oracle; the weather-fetch failure
branch writes the documented fallback and appends one diagnostic. -/
def weatherExec2 (o : Oracle2) (s : TravelState2) : TravelState2 :=
  match o.weather with
  | some w => { s with weather_info := w }
  | none =>
    { s with weather_info := fallbackWeather2
             errors := s.errors ++ ["WeatherAgent: Failed to retrieve data."] }

/-- The later variant's fallback attraction list (line 165). -/
def fallbackAttractions2 : List Attraction :=
  [{ name := "Eiffel Tower", description := "Iconic landmark of Paris.",
     price := some 28, category := "attraction" }]

/-- AttractionAgent.execute of ai_travel_agent_2.py (lines 146-168). -/
def attractionExec2 (o : Oracle2) (s : TravelState2) : TravelState2 :=
  match o.attractions with
  | some a => { s with attractions := a }
  | none =>
    { s with attractions := fallbackAttractions2,
             errors := s.errors ++ ["AttractionAgent: Failed to parse LLM response."] }

/-- The later variant's fallback hotel list (line 189): one fixed hotel at
a constant 2000.0 per night. -/
def fallbackHotels2 : List Hotel :=
  [{ name := "The Ritz Paris", price_per_night := some 2000 }]

/-- HotelAgent.execute of ai_travel_agent_2.py (lines 170-192). -/
def hotelExec2 (o : Oracle2) (s : TravelState2) : TravelState2 :=
  match o.hotels with
  | some hs => { s with hotels := hs }
  | none =>
    { s with hotels := fallbackHotels2,
             errors := s.errors ++ ["HotelAgent: Failed to parse LLM response."] }

/-- The later variant's hotel_prices local (line 200): the price_per_night
values of the hotels carrying a numeric one (the isinstance filter). -/
def hotelPrices2 (hotels : List Hotel) : List ℚ :=
  hotels.filterMap (fun h => h.price_per_night)

/-- The later variant's avg_hotel_price local (line 201): the average over
all numeric prices, 200 when there are none. -/
def avgHotelPrice2 (hotels : List Hotel) : ℚ :=
  if hotelPrices2 hotels = [] then 200
  else (hotelPrices2 hotels).sum / (hotelPrices2 hotels).length

/-- The later variant's accommodation_cost local (line 202). -/
def accommodationCost2 (hotels : List Hotel) (days : Int) : ℚ :=
  avgHotelPrice2 hotels * days

/-- The later variant's food_cost local (line 204). -/
def foodCost2 (days travelers : Int) : ℚ := 80 * days * travelers

/-- The later variant's transport_cost local (line 205). -/
def transportCost2 (days travelers : Int) : ℚ := 30 * days * travelers

/-- The later variant's activities_cost local (line 206): the sum of the
attraction prices, a missing price defaulting to 25, times the traveler
count (not scaled by days).  On the typed restriction only: a present
non-numeric price raises TypeError inside the sum, modelled by
sumPricesDefault25 and costExpenses2R below. -/
def activitiesCost2 (attractions : List Attraction) (travelers : Int) : ℚ :=
  (attractions.map (fun a => a.price.getD 25)).sum * travelers

/-- The later variant's total_cost local (line 208). -/
def totalCost2 (s : TravelState2) : ℚ :=
  accommodationCost2 s.hotels (days2 s.trip_request)
    + foodCost2 (days2 s.trip_request) s.trip_request.travelers
    + transportCost2 (days2 s.trip_request) s.trip_request.travelers
    + activitiesCost2 s.attractions s.trip_request.travelers

/-- CostCalculatorAgent.execute of ai_travel_agent_2.py (lines 194-220):
pure aggregation, each monetary field rounded to two decimals on its
own.  Total on this typed restriction only: over raw payloads the stage
raises TypeError on a present non-numeric attraction price (see
costExpenses2R below), and neither the stage nor plan_trip has a
try-block to catch it. -/
def costExec2 (s : TravelState2) : TravelState2 :=
  let req := s.trip_request
  let days : Int := days2 req
  { s with expenses :=
      { accommodation := round2 (accommodationCost2 s.hotels days)
        food := round2 (foodCost2 days req.travelers)
        transportation := round2 (transportCost2 days req.travelers)
        activities := round2 (activitiesCost2 s.attractions req.travelers)
        total := round2 (totalCost2 s)
        days := days
        daily_budget := round2 (totalCost2 s / days) } }

/-- The later variant's fallback itinerary (line 247): a single day-1
entry dated at the start date, whatever the trip length. -/
def fallbackItinerary2 (req : TripRequest) : List ItineraryDay2 :=
  [{ day := 1, date := req.start_date,
     activities := ["Arrival and explore."], meals := ["Dinner at a local bistro."] }]

/-- ItineraryAgent.execute of ai_travel_agent_2.py (lines 222-250). -/
def itineraryExec2 (o : Oracle2) (s : TravelState2) : TravelState2 :=
  match o.itinerary with
  | some it => { s with itinerary := it }
  | none =>
    { s with itinerary := fallbackItinerary2 s.trip_request,
             errors := s.errors ++ ["ItineraryAgent: Failed to parse LLM response."] }

/-- The later variant's fallback summary (line 296). -/
def fallbackSummary2 : String :=
  "# Travel Plan Summary (Error)\nAn error occurred while generating the detailed summary."

/-- SummaryAgent.execute of ai_travel_agent_2.py (lines 252-299). -/
def summaryExec2 (o : Oracle2) (s : TravelState2) : TravelState2 :=
  match o.summary with
  | some txt => { s with summary := txt }
  | none =>
    { s with summary := fallbackSummary2,
             errors := s.errors ++ ["SummaryAgent: Failed to generate summary."] }

/-- The initial state built by plan_trip of ai_travel_agent_2.py (lines
333-337); the empty expenses dictionary is the zero record. -/
def initState2 (req : TripRequest) : TravelState2 :=
  { trip_request := req
    weather_info := { current_temp := "", forecast := [], recommendations := [] }
    attractions := []
    hotels := []
    expenses := { accommodation := 0, food := 0, transportation := 0,
                  activities := 0, total := 0, days := 0, daily_budget := 0 }
    itinerary := []
    summary := ""
    errors := [] }

/-- plan_trip of ai_travel_agent_2.py (lines 332-339): build the initial
state and run the six stages in the static edge order of the graph.  No
validation of the request happens anywhere. -/
def planTrip2 (req : TripRequest) (o : Oracle2) : TravelState2 :=
  summaryExec2 o (itineraryExec2 o (costExec2 (hotelExec2 o
    (attractionExec2 o (weatherExec2 o (initState2 req))))))

/-- The all-providers-fail oracle for the later variant. -/
def failOracle2 : Oracle2 :=
  { weather := none, attractions := none, hotels := none,
    itinerary := none, summary := none }

/-- The end-to-end example request of the specification: Lisbon,
2025-09-01 to 2025-09-04 (day ordinals 0 and 3), budget 1200 USD, two
travelers, preference food. -/
def lisbonReq : TripRequest :=
  { destination := "Lisbon, Portugal", start_date := 0, end_date := 3,
    budget := 1200, currency := "USD", travelers := 2, preferences := ["food"] }

/-- A Python dictionary value as seen by the earlier variant's currency
loop: numeric (int or float) or not (here: a string). -/
inductive PyVal where
  | num (q : ℚ) : PyVal
  | str (s : String) : PyVal
  deriving Repr, DecidableEq

/-- The conversion loop of CurrencyAgent.execute (lines 488-493 of
ai_travel_agent.py): multiply every numeric dictionary value by the
exchange rate, keep every other value unchanged. -/
def convertNumeric (rate : ℚ) (kv : List (String × PyVal)) : List (String × PyVal) :=
  kv.map (fun e =>
    match e.2 with
    | PyVal.num q => (e.1, PyVal.num (q * rate))
    | v => (e.1, v))

/-- The earlier variant's expenses dictionary (lines 433-442 of
ai_travel_agent.py).  No rounding; days enters as an int and is stored as
a rational because the currency stage may scale it. -/
structure Expenses1 where
  accommodation : ℚ
  food : ℚ
  transportation : ℚ
  activities : ℚ
  miscellaneous : ℚ
  total : ℚ
  daily_budget : ℚ
  days : ℚ
  deriving Repr, DecidableEq

/-- The expenses record as the key-ordered dictionary the source builds,
for feeding the generic currency loop. -/
def toKV1 (e : Expenses1) : List (String × PyVal) :=
  [("accommodation", PyVal.num e.accommodation),
   ("food", PyVal.num e.food),
   ("transportation", PyVal.num e.transportation),
   ("activities", PyVal.num e.activities),
   ("miscellaneous", PyVal.num e.miscellaneous),
   ("total", PyVal.num e.total),
   ("daily_budget", PyVal.num e.daily_budget),
   ("days", PyVal.num e.days)]

/-- Field-wise statement of what the currency loop does to the expenses
dictionary: every entry is numeric, so every entry is scaled. -/
def scaleExpenses1 (rate : ℚ) (e : Expenses1) : Expenses1 :=
  { accommodation := e.accommodation * rate
    food := e.food * rate
    transportation := e.transportation * rate
    activities := e.activities * rate
    miscellaneous := e.miscellaneous * rate
    total := e.total * rate
    daily_budget := e.daily_budget * rate
    days := e.days * rate }

/-- One forecast entry of the earlier variant's weather data. -/
structure ForecastDay1 where
  date : Int
  condition : String
  max_temp : ℚ
  min_temp : ℚ
  precipitation : ℚ
  deriving Repr, DecidableEq

/-- The earlier variant's weather_info dictionary. -/
structure WeatherInfo1 where
  current_temp : String
  condition : String
  forecast : List ForecastDay1
  recommendations : List String
  deriving Repr, DecidableEq

/-- One activity or meal slot of the earlier variant's fallback
itinerary (a dictionary with a label, a text and a cost). -/
structure Slot where
  label : String
  detail : String
  cost : ℚ
  deriving Repr, DecidableEq

/-- A day plan of the earlier variant's itinerary. -/
structure ItineraryDay1 where
  day : Int
  date : Int
  activities : List Slot
  meals : List Slot
  estimated_cost : ℚ
  deriving Repr, DecidableEq

/-- The earlier variant's TravelState, including the routing field
current_step and the currency_rates dictionary. -/
structure TravelState1 where
  trip_request : TripRequest
  weather_info : WeatherInfo1
  attractions : List Attraction
  hotels : List Hotel
  expenses : Expenses1
  currency_rates : List (String × ℚ)
  itinerary : List ItineraryDay1
  summary : String
  current_step : String
  errors : List String
  deriving Repr, DecidableEq

/-- Outcomes of the earlier variant's external interactions.  rate is the
numeric exchange rate the model extraction produced (some 1 when the
parsed reply lacked a rate key); none models a parse failure, handled by
falling back to rate 1. -/
structure Oracle1 where
  weather : Option WeatherInfo1
  attractions : Option (List Attraction)
  hotels : Option (List Hotel)
  rate : Option ℚ
  itinerary : Option (List ItineraryDay1)
  summary : Option String
  deriving Repr, DecidableEq

/-- Whole-day trip length of the earlier variant (lines 410-412 of
ai_travel_agent.py): end - start, with no clamping. -/
def days1 (req : TripRequest) : Int := req.end_date - req.start_date

/-- WeatherAgent.execute of ai_travel_agent.py (lines 202-271).  Both the
success payload and the inner default branches are absorbed by the
oracle; the exception branch writes the documented fallback.  Neither
branch appends to errors. -/
def weatherExec1 (o : Oracle1) (s : TravelState1) : TravelState1 :=
  match o.weather with
  | some w => { s with weather_info := w, current_step := "weather_completed" }
  | none =>
    { s with
      weather_info :=
        { current_temp := "N/A", condition := "Data unavailable",
          forecast := [], recommendations := ["Check weather before departure"] }
      current_step := "weather_completed" }

/-- The earlier variant's fallback attraction list (lines 315-322); its
location key holds the destination, which no later stage reads. -/
def fallbackAttractions1 (_destination : String) : List Attraction :=
  [{ name := "Local Exploration", description := "Explore the local area",
     price := some 0, category := "sightseeing" }]

/-- AttractionAgent.execute of ai_travel_agent.py (lines 276-336).  The
fallback is written on failure but no diagnostic is appended. -/
def attractionExec1 (o : Oracle1) (s : TravelState1) : TravelState1 :=
  match o.attractions with
  | some a => { s with attractions := a, current_step := "attractions_completed" }
  | none =>
    { s with attractions := fallbackAttractions1 s.trip_request.destination,
             current_step := "attractions_completed" }

/-- The earlier variant's fallback hotel list (lines 381-387): one hotel
priced at budget floor-divided by 14 (the code comment reads half budget
for accommodation, over a presumed 7-night stay). -/
def fallbackHotels1 (budget : ℚ) : List Hotel :=
  [{ name := "Budget Hotel", price_per_night := some ((⌊budget / 14⌋ : ℤ) : ℚ) }]

/-- HotelAgent.execute of ai_travel_agent.py (lines 341-400).  The
fallback is written on failure but no diagnostic is appended. -/
def hotelExec1 (o : Oracle1) (s : TravelState1) : TravelState1 :=
  match o.hotels with
  | some hs => { s with hotels := hs, current_step := "hotels_completed" }
  | none =>
    { s with hotels := fallbackHotels1 s.trip_request.budget,
             current_step := "hotels_completed" }

/-- The earlier variant's avg_hotel_price local (line 416): the average
over the first three hotels, 100 when the list is empty.  Defined here
over the numeric prices; the stage itself fails when one of the first
three lacks one. -/
def avgHotelPrice1 (hotels : List Hotel) : ℚ :=
  if hotels = [] then 100
  else ((hotels.take 3).filterMap (fun h => h.price_per_night)).sum
         / (min 3 hotels.length : ℕ)

/-- The earlier variant's accommodation_cost local (line 417). -/
def accommodationCost1 (hotels : List Hotel) (days : Int) : ℚ :=
  avgHotelPrice1 hotels * days

/-- The earlier variant's activity_costs local (line 424): the strictly
positive attraction prices, a missing price defaulting to 0.  On the
typed restriction only: a present non-numeric price raises TypeError in
the comparison with 0, modelled by positivePrices1R and costExpenses1R
below. -/
def activityCosts1 (attractions : List Attraction) : List ℚ :=
  (attractions.map (fun a => a.price.getD 0)).filter (fun p => 0 < p)

/-- The earlier variant's avg_activity_cost local (line 425). -/
def avgActivityCost1 (attractions : List Attraction) : ℚ :=
  ((activityCosts1 attractions).take 10).sum
    / (max 1 ((activityCosts1 attractions).take 10).length : ℕ)

/-- The earlier variant's activities_cost local (line 426): the average
priced activity times days, scaled by the fixed 0.7 paid fraction. -/
def activitiesCost1 (attractions : List Attraction) (days : Int) : ℚ :=
  avgActivityCost1 attractions * days * (7 / 10)

/-- The earlier variant's expenses record as computed by the cost stage
on unfailing inputs. -/
def expensesOf1 (s : TravelState1) : Expenses1 :=
  let days : Int := days1 s.trip_request
  let accommodation_cost := accommodationCost1 s.hotels days
  let food_cost : ℚ := 50 * days * s.trip_request.travelers
  let transportation_cost : ℚ := 200 * s.trip_request.travelers
  let activities_cost := activitiesCost1 s.attractions days
  let miscellaneous_cost : ℚ :=
    (accommodation_cost + food_cost + activities_cost) * (1 / 10)
  let total_cost : ℚ :=
    accommodation_cost + food_cost + transportation_cost + activities_cost
      + miscellaneous_cost
  { accommodation := accommodation_cost
    food := food_cost
    transportation := transportation_cost
    activities := activities_cost
    miscellaneous := miscellaneous_cost
    total := total_cost
    daily_budget := total_cost / days
    days := (days : ℚ) }

/-- CostCalculatorAgent.execute of ai_travel_agent.py (lines 405-446).
The subscript access to price_per_night of the first three hotels raises
KeyError when the key is absent, and daily_budget divides by an
unclamped day count: both uncaught exceptions are modelled as none.  The
stage has no try-block of its own.  Over raw payloads it also raises on
a present non-numeric price (first three hotels, or any attraction);
costExpenses1R below characterizes the full failure set. -/
def costExec1 (s : TravelState1) : Option TravelState1 :=
  if (s.hotels.take 3).any (fun h => h.price_per_night.isNone) then none
  else if days1 s.trip_request = 0 then none
  else
    some { s with expenses := expensesOf1 s, current_step := "costs_completed" }

/-- Python str.upper over the code points of a string (String.toUpper of
the standard library is not used because its primitive recursion does not
reduce inside the kernel). -/
def pyUpper (s : String) : String := String.mk (s.toList.map Char.toUpper)

/-- CurrencyAgent.execute of ai_travel_agent.py (lines 451-498).  For a
USD target the stage records rate 1 and returns before touching expenses
or current_step; otherwise the extracted rate (1 on extraction failure)
scales every numeric entry of the expenses dictionary. -/
def currencyExec1 (o : Oracle1) (s : TravelState1) : TravelState1 :=
  let target := s.trip_request.currency
  if pyUpper target = "USD" then { s with currency_rates := [("USD", 1)] }
  else
    let exchange_rate : ℚ := o.rate.getD 1
    { s with
      currency_rates := [(target, exchange_rate)]
      expenses := scaleExpenses1 exchange_rate s.expenses
      current_step := "currency_completed" }

/-- The earlier variant's fallback itinerary (lines 541-560): one
synthesized entry per day of the unclamped day count, dated start + i,
with three fixed activity slots and three fixed meal slots. -/
def fallbackItinerary1 (req : TripRequest) : List ItineraryDay1 :=
  (List.range (days1 req).toNat).map (fun i : ℕ =>
    { day := (i : Int) + 1
      date := req.start_date + (i : Int)
      activities :=
        [{ label := "Morning", detail := "Explore local attractions", cost := 30 },
         { label := "Afternoon", detail := "Visit museums or landmarks", cost := 25 },
         { label := "Evening", detail := "Dinner and local entertainment", cost := 45 }]
      meals :=
        [{ label := "Breakfast", detail := "Local cafe", cost := 15 },
         { label := "Lunch", detail := "Street food", cost := 20 },
         { label := "Dinner", detail := "Traditional restaurant", cost := 35 }]
      estimated_cost := 170 })

/-- ItineraryAgent.execute of ai_travel_agent.py (lines 503-586). -/
def itineraryExec1 (o : Oracle1) (s : TravelState1) : TravelState1 :=
  match o.itinerary with
  | some it => { s with itinerary := it, current_step := "itinerary_completed" }
  | none =>
    { s with itinerary := fallbackItinerary1 s.trip_request,
             current_step := "itinerary_completed" }

/-- Python format .2f of a rational: two decimal places, rounding to
nearest (ties on the underlying binary float, modelled half-even). -/
def fmtQ (q : ℚ) : String :=
  let c : Int := roundHalfEven (q * 100)
  let sign := if c < 0 then "-" else ""
  let n := c.natAbs
  sign ++ toString (n / 100) ++ "." ++ (if n % 100 < 10 then "0" else "") ++ toString (n % 100)

/-- The earlier variant's fallback summary (lines 649-667): a template
over the trip request and the expense fields.  The indentation of the
Python triple-quoted string is normalized to single newlines, and the
dates of the Dates line print as the integer day ordinals that model
them. -/
def fallbackSummary1 (req : TripRequest) (e : Expenses1) : String :=
  "# Travel Plan Summary\n"
    ++ "**Destination:** " ++ req.destination ++ "\n"
    ++ "**Dates:** " ++ toString req.start_date ++ " to " ++ toString req.end_date ++ "\n"
    ++ "**Travelers:** " ++ toString req.travelers ++ "\n"
    ++ "**Total Budget:** " ++ fmtQ e.total ++ " " ++ req.currency ++ "\n"
    ++ "## Expense Breakdown\n"
    ++ "- Accommodation: " ++ fmtQ e.accommodation ++ " " ++ req.currency ++ "\n"
    ++ "- Food: " ++ fmtQ e.food ++ " " ++ req.currency ++ "\n"
    ++ "- Transportation: " ++ fmtQ e.transportation ++ " " ++ req.currency ++ "\n"
    ++ "- Activities: " ++ fmtQ e.activities ++ " " ++ req.currency ++ "\n"
    ++ "- Miscellaneous: " ++ fmtQ e.miscellaneous ++ " " ++ req.currency ++ "\n"
    ++ "## Daily Budget\n" ++ fmtQ e.daily_budget ++ " " ++ req.currency ++ " per day\n"
    ++ "Note: Detailed summary generation encountered an issue. Basic summary provided.\n"

/-- SummaryAgent.execute of ai_travel_agent.py (lines 591-671). -/
def summaryExec1 (o : Oracle1) (s : TravelState1) : TravelState1 :=
  match o.summary with
  | some txt => { s with summary := txt, current_step := "completed" }
  | none =>
    { s with summary := fallbackSummary1 s.trip_request s.expenses,
             current_step := "completed" }

/-- The initial state built by plan_trip of ai_travel_agent.py (lines
760-779). -/
def initState1 (req : TripRequest) : TravelState1 :=
  { trip_request := req
    weather_info := { current_temp := "", condition := "", forecast := [],
                      recommendations := [] }
    attractions := []
    hotels := []
    expenses := { accommodation := 0, food := 0, transportation := 0, activities := 0,
                  miscellaneous := 0, total := 0, daily_budget := 0, days := 0 }
    currency_rates := []
    itinerary := []
    summary := ""
    current_step := "start"
    errors := [] }

/-- Result of the earlier variant's plan_trip: the final state, or the
error dictionary its except-branch returns, which carries the initial
state as the partial result (the message text holds str of the exception
and is not modelled). -/
inductive PlanResult1 where
  | ok (s : TravelState1) : PlanResult1
  | failed (initial : TravelState1) : PlanResult1
  deriving Repr, DecidableEq

/-- plan_trip of ai_travel_agent.py (lines 758-789): run the seven stages
in the static edge order; any uncaught stage exception is caught at the
top and turned into the error dictionary.  No validation of the request
happens anywhere. -/
def planTrip1 (req : TripRequest) (o : Oracle1) : PlanResult1 :=
  let s3 := hotelExec1 o (attractionExec1 o (weatherExec1 o (initState1 req)))
  match costExec1 s3 with
  | none => PlanResult1.failed (initState1 req)
  | some s4 =>
    PlanResult1.ok (summaryExec1 o (itineraryExec1 o (currencyExec1 o s4)))

/-- The all-providers-fail oracle for the earlier variant. -/
def failOracle1 : Oracle1 :=
  { weather := none, attractions := none, hotels := none,
    rate := none, itinerary := none, summary := none }

/-- The state reaching the earlier variant's CostCalculator in the
all-fail Lisbon scenario. -/
def lisbonAfterHotels1 : TravelState1 :=
  hotelExec1 failOracle1 (attractionExec1 failOracle1
    (weatherExec1 failOracle1 (initState1 lisbonReq)))

/-- The state the earlier variant's CostCalculator produces in the
all-fail Lisbon scenario. -/
def lisbonCosts1 : TravelState1 :=
  (costExec1 lisbonAfterHotels1).getD (initState1 lisbonReq)

/-- The accommodation formula as the specification words it, for
comparison with the code: average price_per_night of up to the first 3
hotels, defaulting to 100 when the list is empty, times days. -/
def specAccommodation (prices : List ℚ) (days : ℚ) : ℚ :=
  (if prices = [] then 100 else (prices.take 3).sum / (min 3 prices.length : ℕ)) * days

/-- A one-day request used by the rounding counterexample. -/
def oneDayReq : TripRequest :=
  { destination := "Testville", start_date := 0, end_date := 1, budget := 500,
    currency := "USD", travelers := 1, preferences := ["food"] }

/-- A state whose parsed hotel and attraction prices carry three decimal
places, so that the independently rounded expense fields drift from the
rounded total. -/
def cex4State : TravelState2 :=
  { initState2 oneDayReq with
      hotels := [{ name := "Hotel H", price_per_night := some (100 + 6 / 1000) }]
      attractions := [{ name := "Museum A", description := "A museum",
                        price := some (25 + 6 / 1000), category := "attraction" }] }

/-- A state with no hotels at all, where the two variants' accommodation
defaults differ. -/
def cex7State : TravelState2 := initState2 oneDayReq

/-- The Lisbon request stretched to six days (same budget). -/
def lisbon6Req : TripRequest := { lisbonReq with end_date := 6 }

/-- The Lisbon request shrunk to a five-day trip with a budget of 100. -/
def smallBudgetReq : TripRequest :=
  { lisbonReq with budget := 100, end_date := 5 }

/-- A malformed request: the end date five days before the start date, a
negative budget and zero travelers. -/
def badReq : TripRequest :=
  { destination := "Nowhere", start_date := 100, end_date := 95, budget := -50,
    currency := "USD", travelers := 0, preferences := [] }

/-- A request whose end date equals its start date. -/
def zeroDayReq : TripRequest := { lisbonReq with end_date := 0 }

/-- The final state of the earlier variant's all-fail Lisbon run. -/
def lisbonFinal1 : TravelState1 :=
  summaryExec1 failOracle1 (itineraryExec1 failOracle1
    (currencyExec1 failOracle1 lisbonCosts1))

/-- A post-cost state of the earlier variant headed into currency
conversion: three days stored in expenses, a non-USD target. -/
def c10State : TravelState1 :=
  { initState1 lisbonReq with
      trip_request := { lisbonReq with currency := "EUR" }
      expenses := { accommodation := 600, food := 300, transportation := 400,
                    activities := 50, miscellaneous := 95, total := 1445,
                    daily_budget := 1445 / 3, days := 3 } }

/-- An oracle whose currency extraction yields rate 2. -/
def rateOracle1 : Oracle1 := { failOracle1 with rate := some 2 }

/-- A raw parsed attraction entry as the cost stages actually receive
it: the price key may be absent (none), numeric, or hold a non-numeric
value such as a string.  The typed Attraction record of the pipeline
embedding above is the crash-free restriction of this type. -/
structure AttractionR where
  name : String
  price : Option PyVal
  deriving Repr, DecidableEq

/-- A raw parsed hotel entry; see AttractionR. -/
structure HotelR where
  name : String
  price_per_night : Option PyVal
  deriving Repr, DecidableEq

/-- The three state fields the CostCalculator stages read, carrying raw
parsed payloads. -/
structure CostInputs where
  trip_request : TripRequest
  hotels : List HotelR
  attractions : List AttractionR
  deriving Repr, DecidableEq

/-- Whether a raw price value is present and non-numeric: the case
Python raises TypeError on once the value enters arithmetic or a
comparison. -/
def isStrPrice : Option PyVal → Bool
  | some (PyVal.str _) => true
  | _ => false

/-- Line 206 of ai_travel_agent_2.py over raw payloads: the sum of the
a.get of price with default 25.0 over the attractions.  A missing key
defaults to 25.0; a present non-numeric value raises TypeError inside
sum, which no try-block catches (none). -/
def sumPricesDefault25 (l : List AttractionR) : Option ℚ :=
  if l.any (fun a => isStrPrice a.price) then none
  else some ((l.map (fun a =>
    match a.price with
    | some (PyVal.num q) => q
    | _ => 25)).sum)

/-- CostCalculatorAgent.execute of ai_travel_agent_2.py (lines 195-218)
over raw parsed payloads: the computed expenses, or none when the stage
raises.  The hotel average filters to numeric prices (isinstance) and
cannot raise; the attraction price sum can. -/
def costExpenses2R (inp : CostInputs) : Option Expenses2 :=
  let days : Int := days2 inp.trip_request
  let hotel_prices : List ℚ := inp.hotels.filterMap (fun h =>
    match h.price_per_night with
    | some (PyVal.num q) => some q
    | _ => none)
  let avg_hotel_price : ℚ :=
    if hotel_prices = [] then 200 else hotel_prices.sum / hotel_prices.length
  let accommodation_cost : ℚ := avg_hotel_price * days
  let food_cost : ℚ := 80 * days * inp.trip_request.travelers
  let transport_cost : ℚ := 30 * days * inp.trip_request.travelers
  match sumPricesDefault25 inp.attractions with
  | none => none
  | some price_sum =>
    let activities_cost : ℚ := price_sum * inp.trip_request.travelers
    let total_cost : ℚ :=
      accommodation_cost + food_cost + transport_cost + activities_cost
    some { accommodation := round2 accommodation_cost
           food := round2 food_cost
           transportation := round2 transport_cost
           activities := round2 activities_cost
           total := round2 total_cost
           days := days
           daily_budget := round2 (total_cost / days) }

/-- A well-typed raw payload: every price numeric. -/
def lisbonCostInputs : CostInputs :=
  { trip_request := lisbonReq
    hotels := [{ name := "The Ritz Paris", price_per_night := some (PyVal.num 2000) }]
    attractions := [{ name := "Eiffel Tower", price := some (PyVal.num 28) }] }

/-- The state reaching the earlier variant's CostCalculator in the
all-fail run on the malformed request (negative day span). -/
def badAfterHotels1 : TravelState1 :=
  hotelExec1 failOracle1 (attractionExec1 failOracle1
    (weatherExec1 failOracle1 (initState1 badReq)))

/-- The state that run's CostCalculator produces: it succeeds, with
nonsense negative costs. -/
def badCosts1 : TravelState1 :=
  (costExec1 badAfterHotels1).getD (initState1 badReq)

/-- The final state of the earlier variant's all-fail run on the
malformed request: the pipeline completes. -/
def badFinal1 : TravelState1 :=
  summaryExec1 failOracle1 (itineraryExec1 failOracle1
    (currencyExec1 failOracle1 badCosts1))

theorem firstIdx_eq_none_iff (c : Char) (l : List Char) :
    firstIdx c l = none ↔ c ∉ l := by
  induction l with
  | nil => simp [firstIdx]
  | cons x t ih =>
    by_cases hx : x = c
    · subst hx
      simp [firstIdx]
    · simp only [firstIdx, if_neg hx, Option.map_eq_none', ih, List.mem_cons]
      constructor
      · rintro h (h1 | h2)
        · exact hx h1.symm
        · exact h h2
      · intro h hm
        exact h (Or.inr hm)

theorem jsonStart_eq_none_iff (l : List Char) :
    jsonStart l = none ↔ ('{' ∉ l ∧ '[' ∉ l) := by
  cases h1 : firstIdx '{' l with
  | none =>
    cases h2 : firstIdx '[' l with
    | none =>
      simp only [jsonStart, h1, h2]
      exact iff_of_true trivial ⟨(firstIdx_eq_none_iff _ _).mp h1, (firstIdx_eq_none_iff _ _).mp h2⟩
    | some j =>
      simp only [jsonStart, h1, h2]
      refine iff_of_false (by simp) ?_
      rintro ⟨-, hb⟩
      rw [(firstIdx_eq_none_iff _ _).mpr hb] at h2
      cases h2
  | some i =>
    cases h2 : firstIdx '[' l with
    | none =>
      simp only [jsonStart, h1, h2]
      refine iff_of_false (by simp) ?_
      rintro ⟨ha, -⟩
      rw [(firstIdx_eq_none_iff _ _).mpr ha] at h1
      cases h1
    | some j =>
      simp only [jsonStart, h1, h2]
      refine iff_of_false (by simp) ?_
      rintro ⟨ha, -⟩
      rw [(firstIdx_eq_none_iff _ _).mpr ha] at h1
      cases h1

theorem parseLlmJson_noStructure_iff (text : List Char) (shape : Shape) :
    parseLlmJson text shape = Except.error ParseError.noStructureFound
      ↔ ('{' ∉ text ∧ '[' ∉ text) := by
  cases hj : jsonStart text with
  | none =>
    simp only [parseLlmJson, hj]
    exact iff_of_true trivial ((jsonStart_eq_none_iff text).mp hj)
  | some i =>
    have hnot : ¬ ('{' ∉ text ∧ '[' ∉ text) := by
      intro hab
      rw [(jsonStart_eq_none_iff text).mpr hab] at hj
      cases hj
    refine iff_of_false ?_ hnot
    simp only [parseLlmJson, hj]
    cases hl : jsonLoads (text.drop i) with
    | error e => simp
    | ok v =>
      by_cases hs : shapeMatches shape v
      · simp [hs]
      · simp [hs]

/-- C2: with free-form commentary before and after an embedded JSON
object, _parse_llm_json slices from the first structural character to the
very end of the text and hands the slice to strict json.loads, which
rejects the trailing commentary as extra data; the documented example
text therefore raises instead of returning the object.  Dropping the
trailing text returns the object as documented. -/
theorem C2_trailing_text_fails_extraction :
    parseLlmJson ("blah blah \x7b\"a\":1\x7d trailing".toList) Shape.objS
      = Except.error (ParseError.malformedJSON "\x7b\"a\":1\x7d trailing")
    ∧ parseLlmJson ("blah blah \x7b\"a\":1\x7d".toList) Shape.objS
      = Except.ok (Json.obj [("a", Json.num 1)]) :=
  ⟨rfl, rfl⟩

/-- C6: the extractor fails with noStructureFound exactly when the text
holds neither a brace nor a bracket; it fails with malformedJSON carrying
the slice whenever strict decoding of the slice fails, as on the input
square bracket 1 comma 2 comma; it fails with unexpectedShape whenever
decoding succeeds with the wrong top-level shape, as on an object when an
array was expected; and every run ends in success or one of those three
failures. -/
theorem C6_extractor_error_taxonomy :
    (∀ text shape, parseLlmJson text shape = Except.error ParseError.noStructureFound
        ↔ ('{' ∉ text ∧ '[' ∉ text))
    ∧ parseLlmJson ("[1,2,".toList) Shape.arrS
        = Except.error (ParseError.malformedJSON "[1,2,")
    ∧ parseLlmJson ("\x7b\"a\":1\x7d".toList) Shape.arrS
        = Except.error ParseError.unexpectedShape
    ∧ (∀ text shape i msg, jsonStart text = some i
        → jsonLoads (text.drop i) = Except.error msg
        → parseLlmJson text shape
            = Except.error (ParseError.malformedJSON (String.mk (text.drop i))))
    ∧ (∀ text shape v i, jsonStart text = some i
        → jsonLoads (text.drop i) = Except.ok v
        → shapeMatches shape v = false
        → parseLlmJson text shape = Except.error ParseError.unexpectedShape)
    ∧ (∀ text shape,
        (∃ v, parseLlmJson text shape = Except.ok v)
        ∨ parseLlmJson text shape = Except.error ParseError.noStructureFound
        ∨ (∃ sl, parseLlmJson text shape = Except.error (ParseError.malformedJSON sl))
        ∨ parseLlmJson text shape = Except.error ParseError.unexpectedShape) := by
  refine ⟨parseLlmJson_noStructure_iff, rfl, rfl, ?_, ?_, ?_⟩
  · intro text shape i msg hj hl
    simp [parseLlmJson, hj, hl]
  · intro text shape v i hj hl hs
    simp [parseLlmJson, hj, hl, hs]
  · intro text shape
    cases hj : jsonStart text with
    | none => exact Or.inr (Or.inl (by simp [parseLlmJson, hj]))
    | some i =>
      cases hl : jsonLoads (text.drop i) with
      | error e =>
        exact Or.inr (Or.inr (Or.inl
          ⟨String.mk (text.drop i), by simp [parseLlmJson, hj, hl]⟩))
      | ok v =>
        by_cases hs : shapeMatches shape v
        · exact Or.inl ⟨v, by simp [parseLlmJson, hj, hl, hs]⟩
        · exact Or.inr (Or.inr (Or.inr (by simp [parseLlmJson, hj, hl, hs])))

/-- Witness for C6: the taxonomy applied at concrete inputs, discharging
each hypothesis there. -/
theorem C6_extractor_error_taxonomy_witness :
    parseLlmJson ("hello".toList) Shape.objS = Except.error ParseError.noStructureFound
    ∧ parseLlmJson ("[1,2,".toList) Shape.objS
        = Except.error (ParseError.malformedJSON (String.mk (("[1,2,".toList).drop 0)))
    ∧ parseLlmJson ("\x7b\"a\":1\x7d".toList) Shape.arrS
        = Except.error ParseError.unexpectedShape :=
  ⟨(C6_extractor_error_taxonomy.1 _ _).mpr (by decide),
   C6_extractor_error_taxonomy.2.2.2.1 ("[1,2,".toList) Shape.objS 0 "Expecting value"
     rfl rfl,
   C6_extractor_error_taxonomy.2.2.2.2.1 ("\x7b\"a\":1\x7d".toList) Shape.arrS
     (Json.obj [("a", Json.num 1)]) 0 rfl rfl rfl⟩

theorem abs_roundHalfEven_sub (q : ℚ) : |(roundHalfEven q : ℚ) - q| ≤ 1 / 2 := by
  rw [roundHalfEven]
  split_ifs with h1 h2
  · rw [show ((⌊q⌋ : ℤ) : ℚ) - q = -(1 / 2) from by linarith, abs_neg,
        abs_of_nonneg (by norm_num : (0 : ℚ) ≤ 1 / 2)]
  · push_cast
    rw [show (⌊q⌋ : ℚ) + 1 - q = 1 / 2 from by linarith,
        abs_of_nonneg (by norm_num : (0 : ℚ) ≤ 1 / 2)]
  · rw [abs_sub_comm]
    exact abs_sub_round q

theorem roundHalfEven_eq (q : ℚ) (n : ℤ) (hlo : (n : ℚ) - 1 / 2 < q)
    (hhi : q < (n : ℚ) + 1 / 2) : roundHalfEven q = n := by
  have hne : ¬ (q - (⌊q⌋ : ℚ) = 1 / 2) := by
    intro h
    have h1 : (n : ℚ) - 1 < (⌊q⌋ : ℚ) := by linarith
    have h2 : ((⌊q⌋ : ℚ)) < (n : ℚ) := by linarith
    have h1' : (n : ℤ) - 1 < ⌊q⌋ := by exact_mod_cast h1
    have h2' : ⌊q⌋ < n := by exact_mod_cast h2
    omega
  rw [roundHalfEven, if_neg hne, round_eq, Int.floor_eq_iff]
  constructor
  · linarith
  · linarith

theorem round2_eq (q : ℚ) (n : ℤ) (hlo : (n : ℚ) - 1 / 2 < q * 100)
    (hhi : q * 100 < (n : ℚ) + 1 / 2) : round2 q = (n : ℚ) / 100 := by
  rw [round2, roundHalfEven_eq (q * 100) n hlo hhi]

theorem abs_round2_sub (q : ℚ) : |round2 q - q| ≤ 1 / 200 := by
  have h := abs_roundHalfEven_sub (q * 100)
  rw [round2]
  rw [show (roundHalfEven (q * 100) : ℚ) / 100 - q
      = ((roundHalfEven (q * 100) : ℚ) - q * 100) / 100 from by ring]
  rw [abs_div, show |(100 : ℚ)| = 100 from by norm_num]
  linarith

theorem round2_add4_bound (a b c d : ℚ) :
    |round2 (a + b + c + d) - (round2 a + round2 b + round2 c + round2 d)| ≤ 1 / 40 := by
  have h0 := abs_le.mp (abs_round2_sub (a + b + c + d))
  have h1 := abs_le.mp (abs_round2_sub a)
  have h2 := abs_le.mp (abs_round2_sub b)
  have h3 := abs_le.mp (abs_round2_sub c)
  have h4 := abs_le.mp (abs_round2_sub d)
  rw [abs_le]
  refine ⟨?_, ?_⟩ <;>
    linarith [h0.1, h0.2, h1.1, h1.2, h2.1, h2.2, h3.1, h3.2, h4.1, h4.2]

/-- C4 counterexample: a one-day, one-traveler run whose parsed hotel
price 100.006 and attraction price 25.006 make the independently rounded
component fields sum to 235.02 while the stored total is 235.01, a
discrepancy of a whole cent, far beyond floating-point tolerance. -/
theorem C4_counterexample :
    (costExec2 cex4State).expenses.total = 23501 / 100
    ∧ (costExec2 cex4State).expenses.accommodation + (costExec2 cex4State).expenses.food
        + (costExec2 cex4State).expenses.transportation
        + (costExec2 cex4State).expenses.activities = 23502 / 100
    ∧ ((23501 : ℚ) / 100 ≠ 23502 / 100) := by
  have ht : totalCost2 cex4State = 235012 / 1000 := by
    simp [totalCost2, accommodationCost2, avgHotelPrice2, hotelPrices2, foodCost2,
          transportCost2, activitiesCost2, cex4State, initState2, oneDayReq, days2]
    norm_num
  have ha : accommodationCost2 cex4State.hotels (days2 cex4State.trip_request)
      = 100006 / 1000 := by
    simp [accommodationCost2, avgHotelPrice2, hotelPrices2, cex4State, initState2,
          oneDayReq, days2]
    norm_num
  have hf : foodCost2 (days2 cex4State.trip_request) cex4State.trip_request.travelers
      = 80 := by
    simp [foodCost2, cex4State, initState2, oneDayReq, days2]
  have hts : transportCost2 (days2 cex4State.trip_request) cex4State.trip_request.travelers
      = 30 := by
    simp [transportCost2, cex4State, initState2, oneDayReq, days2]
  have hac : activitiesCost2 cex4State.attractions cex4State.trip_request.travelers
      = 25006 / 1000 := by
    simp [activitiesCost2, cex4State, initState2, oneDayReq]
    norm_num
  refine ⟨?_, ?_, by norm_num⟩
  · have h : (costExec2 cex4State).expenses.total = round2 (totalCost2 cex4State) := rfl
    rw [h, ht, round2_eq _ 23501 (by norm_num) (by norm_num)]
    norm_num
  · have h1 : (costExec2 cex4State).expenses.accommodation
        = round2 (accommodationCost2 cex4State.hotels (days2 cex4State.trip_request)) := rfl
    have h2 : (costExec2 cex4State).expenses.food
        = round2 (foodCost2 (days2 cex4State.trip_request)
            cex4State.trip_request.travelers) := rfl
    have h3 : (costExec2 cex4State).expenses.transportation
        = round2 (transportCost2 (days2 cex4State.trip_request)
            cex4State.trip_request.travelers) := rfl
    have h4 : (costExec2 cex4State).expenses.activities
        = round2 (activitiesCost2 cex4State.attractions
            cex4State.trip_request.travelers) := rfl
    rw [h1, h2, h3, h4, ha, hf, hts, hac,
        round2_eq _ 10001 (by norm_num) (by norm_num),
        round2_eq _ 8000 (by norm_num) (by norm_num),
        round2_eq _ 3000 (by norm_num) (by norm_num),
        round2_eq _ 2501 (by norm_num) (by norm_num)]
    norm_num

/-- C4 amended: in the earlier variant the stored total reconciles
exactly with the stored components; in the later variant the stored
total is the exact component sum rounded to two decimals, so it can
drift from the sum of the independently rounded component fields by up
to 0.025 - cent-level rounding error, not floating-point tolerance. -/
theorem C4_amended_total_reconciliation :
    (∀ s s', costExec1 s = some s'
      → s'.expenses.total
          = s'.expenses.accommodation + s'.expenses.food + s'.expenses.transportation
              + s'.expenses.activities + s'.expenses.miscellaneous)
    ∧ (∀ s : TravelState2, (costExec2 s).expenses.total = round2 (totalCost2 s))
    ∧ (∀ s : TravelState2,
        |(costExec2 s).expenses.total
            - ((costExec2 s).expenses.accommodation + (costExec2 s).expenses.food
                + (costExec2 s).expenses.transportation
                + (costExec2 s).expenses.activities)|
          ≤ 1 / 40) := by
  refine ⟨?_, fun s => rfl, ?_⟩
  · intro s s' h
    rw [costExec1] at h
    split_ifs at h
    obtain rfl := Option.some.inj h
    simp [expensesOf1]
  · intro s
    have h : (costExec2 s).expenses.total = round2 (totalCost2 s) := rfl
    have h1 : (costExec2 s).expenses.accommodation
        = round2 (accommodationCost2 s.hotels (days2 s.trip_request)) := rfl
    have h2 : (costExec2 s).expenses.food
        = round2 (foodCost2 (days2 s.trip_request) s.trip_request.travelers) := rfl
    have h3 : (costExec2 s).expenses.transportation
        = round2 (transportCost2 (days2 s.trip_request) s.trip_request.travelers) := rfl
    have h4 : (costExec2 s).expenses.activities
        = round2 (activitiesCost2 s.attractions s.trip_request.travelers) := rfl
    rw [h, h1, h2, h3, h4, totalCost2]
    exact round2_add4_bound _ _ _ _

/-- Witness for C4 amended: the earlier variant's exact reconciliation on
the all-fail Lisbon run, the hypothesis discharged by evaluation. -/
theorem C4_amended_total_reconciliation_witness :
    lisbonCosts1.expenses.total
      = lisbonCosts1.expenses.accommodation + lisbonCosts1.expenses.food
          + lisbonCosts1.expenses.transportation + lisbonCosts1.expenses.activities
          + lisbonCosts1.expenses.miscellaneous :=
  C4_amended_total_reconciliation.1 lisbonAfterHotels1 lisbonCosts1 rfl

theorem trip_request_weatherExec2 (o : Oracle2) (s : TravelState2) :
    (weatherExec2 o s).trip_request = s.trip_request := by
  cases h : o.weather <;> simp [weatherExec2, h]

theorem trip_request_attractionExec2 (o : Oracle2) (s : TravelState2) :
    (attractionExec2 o s).trip_request = s.trip_request := by
  cases h : o.attractions <;> simp [attractionExec2, h]

theorem trip_request_hotelExec2 (o : Oracle2) (s : TravelState2) :
    (hotelExec2 o s).trip_request = s.trip_request := by
  cases h : o.hotels <;> simp [hotelExec2, h]

theorem expenses_itineraryExec2 (o : Oracle2) (s : TravelState2) :
    (itineraryExec2 o s).expenses = s.expenses := by
  cases h : o.itinerary <;> simp [itineraryExec2, h]

theorem expenses_summaryExec2 (o : Oracle2) (s : TravelState2) :
    (summaryExec2 o s).expenses = s.expenses := by
  cases h : o.summary <;> simp [summaryExec2, h]

theorem itinerary_summaryExec2 (o : Oracle2) (s : TravelState2) :
    (summaryExec2 o s).itinerary = s.itinerary := by
  cases h : o.summary <;> simp [summaryExec2, h]

theorem costExec2_days (s : TravelState2) :
    (costExec2 s).expenses.days = days2 s.trip_request := rfl

theorem planTrip2_expenses_days (req : TripRequest) (o : Oracle2) :
    (planTrip2 req o).expenses.days = days2 req := by
  rw [planTrip2, expenses_summaryExec2, expenses_itineraryExec2, costExec2_days,
      trip_request_hotelExec2, trip_request_attractionExec2, trip_request_weatherExec2]
  rfl

theorem errlen_weatherExec2 (o : Oracle2) (s : TravelState2) :
    (weatherExec2 o s).errors.length ≤ s.errors.length + 1 := by
  cases h : o.weather <;> simp [weatherExec2, h]

theorem errlen_attractionExec2 (o : Oracle2) (s : TravelState2) :
    (attractionExec2 o s).errors.length ≤ s.errors.length + 1 := by
  cases h : o.attractions <;> simp [attractionExec2, h]

theorem errlen_hotelExec2 (o : Oracle2) (s : TravelState2) :
    (hotelExec2 o s).errors.length ≤ s.errors.length + 1 := by
  cases h : o.hotels <;> simp [hotelExec2, h]

theorem errlen_itineraryExec2 (o : Oracle2) (s : TravelState2) :
    (itineraryExec2 o s).errors.length ≤ s.errors.length + 1 := by
  cases h : o.itinerary <;> simp [itineraryExec2, h]

theorem errlen_summaryExec2 (o : Oracle2) (s : TravelState2) :
    (summaryExec2 o s).errors.length ≤ s.errors.length + 1 := by
  cases h : o.summary <;> simp [summaryExec2, h]

/-- C1 counterexample: in the later variant's all-fail Lisbon run the
stored day count is 3 while the fallback itinerary holds a single entry,
so the itinerary length does not equal days. -/
theorem C1_counterexample :
    (planTrip2 lisbonReq failOracle2).itinerary.length = 1
    ∧ (planTrip2 lisbonReq failOracle2).expenses.days = 3
    ∧ (1 : Int) ≠ 3 :=
  ⟨rfl, rfl, by decide⟩

/-- C1 amended: the later variant always stores days = max(1, end -
start); its fallback itinerary however always holds exactly one entry, so
itinerary length equals days only for one-day trips.  The earlier
variant's fallback itinerary holds one entry per unclamped day.  A
successfully parsed model itinerary is stored as-is, with no length
check. -/
theorem C1_amended_itinerary_length :
    (∀ req o, (planTrip2 req o).expenses.days = max 1 (req.end_date - req.start_date))
    ∧ (∀ req o, o.itinerary = none → (planTrip2 req o).itinerary.length = 1)
    ∧ (∀ (o : Oracle1) (s : TravelState1), o.itinerary = none
        → (itineraryExec1 o s).itinerary.length = (days1 s.trip_request).toNat)
    ∧ (∀ (o : Oracle2) (s : TravelState2) it, o.itinerary = some it
        → (itineraryExec2 o s).itinerary = it) := by
  refine ⟨?_, ?_, ?_, ?_⟩
  · intro req o
    exact planTrip2_expenses_days req o
  · intro req o h
    rw [planTrip2, itinerary_summaryExec2]
    simp [itineraryExec2, h, fallbackItinerary2]
  · intro o s h
    have e : (itineraryExec1 o s).itinerary = fallbackItinerary1 s.trip_request := by
      simp [itineraryExec1, h]
    rw [e, fallbackItinerary1, List.length_map, List.length_range]
  · intro o s it h
    simp [itineraryExec2, h]

/-- Witness for C1 amended at the Lisbon request. -/
theorem C1_amended_itinerary_length_witness :
    (planTrip2 lisbonReq failOracle2).expenses.days
        = max 1 (lisbonReq.end_date - lisbonReq.start_date)
    ∧ (planTrip2 lisbonReq failOracle2).itinerary.length = 1
    ∧ (itineraryExec1 failOracle1 (initState1 lisbonReq)).itinerary.length
        = (days1 (initState1 lisbonReq).trip_request).toNat :=
  ⟨C1_amended_itinerary_length.1 lisbonReq failOracle2,
   C1_amended_itinerary_length.2.1 lisbonReq failOracle2 rfl,
   C1_amended_itinerary_length.2.2.1 failOracle1 (initState1 lisbonReq) rfl⟩

theorem costExpenses2R_none_iff (inp : CostInputs) :
    costExpenses2R inp = none
      ↔ inp.attractions.any (fun a => isStrPrice a.price) = true := by
  by_cases h : inp.attractions.any (fun a => isStrPrice a.price) = true
  · simp [costExpenses2R, sumPricesDefault25, h]
  · simp [costExpenses2R, sumPricesDefault25, h]

/-- C3 counterexample: in the earlier variant a failed attraction stage
writes its documented fallback but appends no diagnostic at all - zero
entries, not exactly one. -/
theorem C3_counterexample :
    (attractionExec1 failOracle1 (initState1 lisbonReq)).errors.length = 0
    ∧ (attractionExec1 failOracle1 (initState1 lisbonReq)).attractions
        = fallbackAttractions1 "Lisbon, Portugal" :=
  ⟨rfl, rfl⟩

/-- C3 amended: in the later variant every caught recoverable stage
failure appends exactly one diagnostic and writes the stage's documented
default, a success writes the payload and leaves errors untouched,
errors grows monotonically with final length at most the number of
stages, and a well-typed stage payload never makes the CostCalculator
raise, so such runs end in a complete state; in the earlier variant the
default is written but no diagnostic is appended.  An ill-typed
parse-successful payload (a present non-numeric price) instead crashes
the CostCalculator, which no try-block turns into an errors entry. -/
theorem C3_amended_error_policy :
    (∀ s o, o.weather = none → weatherExec2 o s
        = { s with weather_info := fallbackWeather2,
                   errors := s.errors ++ ["WeatherAgent: Failed to retrieve data."] })
    ∧ (∀ s o w, o.weather = some w → weatherExec2 o s = { s with weather_info := w })
    ∧ (∀ s o, o.attractions = none → attractionExec2 o s
        = { s with attractions := fallbackAttractions2,
                   errors := s.errors ++ ["AttractionAgent: Failed to parse LLM response."] })
    ∧ (∀ s o, o.hotels = none → hotelExec2 o s
        = { s with hotels := fallbackHotels2,
                   errors := s.errors ++ ["HotelAgent: Failed to parse LLM response."] })
    ∧ (∀ s o, o.itinerary = none → itineraryExec2 o s
        = { s with itinerary := fallbackItinerary2 s.trip_request,
                   errors := s.errors ++ ["ItineraryAgent: Failed to parse LLM response."] })
    ∧ (∀ s o, o.summary = none → summaryExec2 o s
        = { s with summary := fallbackSummary2,
                   errors := s.errors ++ ["SummaryAgent: Failed to generate summary."] })
    ∧ (∀ req o, (planTrip2 req o).errors.length ≤ 6)
    ∧ (∀ (s : TravelState1) (o : Oracle1), o.attractions = none
        → (attractionExec1 o s).attractions = fallbackAttractions1 s.trip_request.destination
          ∧ (attractionExec1 o s).errors = s.errors)
    ∧ (∀ inp : CostInputs, inp.attractions.any (fun a => isStrPrice a.price) = false
        → costExpenses2R inp ≠ none) := by
  refine ⟨?_, ?_, ?_, ?_, ?_, ?_, ?_, ?_, ?_⟩
  · intro s o h
    simp [weatherExec2, h]
  · intro s o w h
    simp [weatherExec2, h]
  · intro s o h
    simp [attractionExec2, h]
  · intro s o h
    simp [hotelExec2, h]
  · intro s o h
    simp [itineraryExec2, h]
  · intro s o h
    simp [summaryExec2, h]
  · intro req o
    have hw := errlen_weatherExec2 o (initState2 req)
    have ha := errlen_attractionExec2 o (weatherExec2 o (initState2 req))
    have hh := errlen_hotelExec2 o (attractionExec2 o (weatherExec2 o (initState2 req)))
    have hc : (costExec2 (hotelExec2 o (attractionExec2 o
          (weatherExec2 o (initState2 req))))).errors.length
        = (hotelExec2 o (attractionExec2 o
            (weatherExec2 o (initState2 req)))).errors.length := rfl
    have hi := errlen_itineraryExec2 o (costExec2 (hotelExec2 o (attractionExec2 o
        (weatherExec2 o (initState2 req)))))
    have hs := errlen_summaryExec2 o (itineraryExec2 o (costExec2 (hotelExec2 o
        (attractionExec2 o (weatherExec2 o (initState2 req))))))
    have h0 : (initState2 req).errors.length = 0 := rfl
    rw [planTrip2]
    omega
  · intro s o h
    exact ⟨by simp [attractionExec1, h], by simp [attractionExec1, h]⟩
  · intro inp h hn
    rw [costExpenses2R_none_iff] at hn
    simp [h] at hn

/-- Witness for C3 amended: a failing weather stage of the later variant,
a failing attraction stage of the earlier one, and a well-typed raw
payload on which the later CostCalculator succeeds, all at the Lisbon
request. -/
theorem C3_amended_error_policy_witness :
    weatherExec2 failOracle2 (initState2 lisbonReq)
      = { initState2 lisbonReq with
            weather_info := fallbackWeather2,
            errors := (initState2 lisbonReq).errors
              ++ ["WeatherAgent: Failed to retrieve data."] }
    ∧ (attractionExec1 failOracle1 (initState1 lisbonReq)).errors
        = (initState1 lisbonReq).errors
    ∧ costExpenses2R lisbonCostInputs ≠ none :=
  ⟨C3_amended_error_policy.1 (initState2 lisbonReq) failOracle2 rfl,
   (C3_amended_error_policy.2.2.2.2.2.2.2.1 (initState1 lisbonReq) failOracle1 rfl).2,
   C3_amended_error_policy.2.2.2.2.2.2.2.2 lisbonCostInputs rfl⟩

/-- C5 counterexample: a request whose end date precedes its start date,
with negative budget and zero travelers, is not rejected - the later
variant's pipeline runs every stage, clamps days to 1 and completes with
a full state; no validation failure is ever surfaced. -/
theorem C5_counterexample :
    (planTrip2 badReq failOracle2).errors.length = 5
    ∧ (planTrip2 badReq failOracle2).expenses.days = 1
    ∧ (planTrip2 badReq failOracle2).summary = fallbackSummary2
    ∧ (planTrip2 badReq failOracle2).itinerary.length = 1 :=
  ⟨rfl, rfl, rfl, rfl⟩

/-- C5 amended: neither variant validates the TripRequest and no
FatalInputError exists - the pipeline always starts.  The later variant,
with all providers failing, runs every stage for any request, malformed
included, clamping the day span to at least 1 and returning a complete
state.  The earlier variant also admits malformed requests: a negative
day span completes with nonsense values, and an equal start and end date
crashes mid-pipeline in CostCalculator (ZeroDivisionError) - a crash
after stages have run, never an up-front validation error. -/
theorem C5_amended_no_validation :
    (∀ req : TripRequest,
      (planTrip2 req failOracle2).errors.length = 5
      ∧ (planTrip2 req failOracle2).expenses.days
          = max 1 (req.end_date - req.start_date)
      ∧ (planTrip2 req failOracle2).itinerary.length = 1
      ∧ (planTrip2 req failOracle2).summary = fallbackSummary2)
    ∧ planTrip1 badReq failOracle1 = PlanResult1.ok badFinal1
    ∧ planTrip1 zeroDayReq failOracle1 = PlanResult1.failed (initState1 zeroDayReq) :=
  ⟨fun _ => ⟨rfl, rfl, rfl, rfl⟩, rfl, rfl⟩

theorem length_filterMap_price (l : List Hotel)
    (hall : ∀ x ∈ l, x.price_per_night.isSome) :
    (l.filterMap (fun h => h.price_per_night)).length = l.length := by
  induction l with
  | nil => simp
  | cons a t ih =>
    obtain ⟨p, hp⟩ := Option.isSome_iff_exists.mp (hall a (List.mem_cons_self a t))
    simp [List.filterMap_cons, hp, ih (fun x hx => hall x (List.mem_cons_of_mem a hx))]

theorem avgHotelPrice1_eq_spec (hotels : List Hotel)
    (hall : ∀ x ∈ hotels.take 3, x.price_per_night.isSome) :
    avgHotelPrice1 hotels
      = (if (hotels.take 3).filterMap (fun h => h.price_per_night) = [] then (100 : ℚ)
          else (((hotels.take 3).filterMap (fun h => h.price_per_night)).take 3).sum
               / (min 3 ((hotels.take 3).filterMap (fun h => h.price_per_night)).length : ℕ)) := by
  have hlen : ((hotels.take 3).filterMap (fun h => h.price_per_night)).length
      = (hotels.take 3).length := length_filterMap_price _ hall
  rcases hotels with _ | ⟨a, t⟩
  · simp [avgHotelPrice1]
  · have hlen' : ((((a :: t).take 3)).filterMap (fun h => h.price_per_night)).length
        = min 3 (a :: t).length := by
      rw [hlen, List.length_take]
    have hpos : 0 < (((a :: t).take 3).filterMap (fun h => h.price_per_night)).length := by
      rw [hlen']
      simp [Nat.lt_min]
    have hne : ((a :: t).take 3).filterMap (fun h => h.price_per_night) ≠ [] :=
      List.ne_nil_of_length_pos hpos
    have hle : (((a :: t).take 3).filterMap (fun h => h.price_per_night)).length ≤ 3 := by
      rw [hlen']
      exact Nat.min_le_left _ _
    rw [avgHotelPrice1, if_neg (by simp : ¬(a :: t : List Hotel) = []), if_neg hne,
        List.take_of_length_le hle, hlen']
    congr 1
    norm_cast
    omega

/-- C7 counterexample: on an empty hotel list the later variant's
CostCalculator charges the 200 default per night, not the claimed 100;
for a one-day trip this puts accommodation at 200 where the claimed
formula gives 100. -/
theorem C7_counterexample :
    (costExec2 cex7State).expenses.accommodation = 200
    ∧ specAccommodation (hotelPrices2 cex7State.hotels)
        ((days2 cex7State.trip_request : ℤ) : ℚ) = 100
    ∧ ((200 : ℚ) ≠ 100) := by
  refine ⟨?_, ?_, by norm_num⟩
  · have h : (costExec2 cex7State).expenses.accommodation
        = round2 (accommodationCost2 cex7State.hotels (days2 cex7State.trip_request)) := rfl
    have ha : accommodationCost2 cex7State.hotels (days2 cex7State.trip_request) = 200 := by
      simp [accommodationCost2, avgHotelPrice2, hotelPrices2, cex7State, initState2,
            oneDayReq, days2]
    rw [h, ha, round2_eq _ 20000 (by norm_num) (by norm_num)]
    norm_num
  · simp [specAccommodation, hotelPrices2, cex7State, initState2, oneDayReq, days2]

/-- C7 amended: the earlier variant computes accommodation exactly as the
claim states (average of up to the first three hotel prices, 100 when
there are none, times days); the later variant instead averages over all
hotels carrying a numeric price, defaults to 200, multiplies by the
clamped day count and rounds to two decimals. -/
theorem C7_amended_accommodation_formula :
    (∀ s s', costExec1 s = some s'
      → s'.expenses.accommodation
          = specAccommodation ((s.hotels.take 3).filterMap (fun h => h.price_per_night))
              (days1 s.trip_request : ℚ))
    ∧ (∀ s : TravelState2, (costExec2 s).expenses.accommodation
        = round2 ((if hotelPrices2 s.hotels = [] then (200 : ℚ)
            else (hotelPrices2 s.hotels).sum / (hotelPrices2 s.hotels).length)
          * (days2 s.trip_request : ℚ))) := by
  refine ⟨?_, fun s => rfl⟩
  intro s s' h
  rw [costExec1] at h
  split_ifs at h with hA hB
  obtain rfl := Option.some.inj h
  have hall : ∀ x ∈ s.hotels.take 3, x.price_per_night.isSome := by
    intro x hx
    cases hpn : x.price_per_night with
    | some p => simp [hpn]
    | none =>
      exact absurd (List.any_eq_true.mpr ⟨x, hx, by simp [hpn]⟩) hA
  have hacc : ({ s with
        expenses := expensesOf1 s
        current_step := "costs_completed" } : TravelState1).expenses.accommodation
      = avgHotelPrice1 s.hotels * (days1 s.trip_request : ℚ) := rfl
  rw [hacc, specAccommodation, avgHotelPrice1_eq_spec s.hotels hall]

/-- Witness for C7 amended: the earlier variant's formula on the all-fail
Lisbon run, the hypothesis discharged by evaluation. -/
theorem C7_amended_accommodation_formula_witness :
    lisbonCosts1.expenses.accommodation
      = specAccommodation
          ((lisbonAfterHotels1.hotels.take 3).filterMap (fun h => h.price_per_night))
          (days1 lisbonAfterHotels1.trip_request : ℚ) :=
  C7_amended_accommodation_formula.1 lisbonAfterHotels1 lisbonCosts1 rfl

/-- C8 counterexample: the earlier variant's fallback hotel price is the
budget floor-divided by the constant 14, independent of the trip length -
a three-day and a six-day Lisbon trip with the same 1200 budget both get
85 per night, which no single configured fraction of budget divided by
trip length can produce. -/
theorem C8_counterexample :
    (hotelExec1 failOracle1 (initState1 lisbonReq)).hotels
        = (hotelExec1 failOracle1 (initState1 lisbon6Req)).hotels
    ∧ (hotelExec1 failOracle1 (initState1 lisbonReq)).hotels
        = [{ name := "Budget Hotel", price_per_night := some 85 }]
    ∧ ¬ ∃ c : ℚ, ((85 : ℚ) = c * 1200 / 3 ∧ (85 : ℚ) = c * 1200 / 6) := by
  have hfloor : (⌊(1200 : ℚ) / 14⌋ : ℤ) = 85 := Int.floor_eq_iff.mpr (by norm_num)
  refine ⟨rfl, ?_, ?_⟩
  · show fallbackHotels1 1200 = _
    rw [fallbackHotels1, hfloor]
    norm_num
  · rintro ⟨c, h1, h2⟩
    field_simp at h1 h2
    linarith

/-- C8 amended: the fallback writes a single-element hotel list in both
variants; its price is floor(budget / 14) in the earlier variant (half
the budget over a presumed 7-night stay) and the constant 2000 in the
later one - neither is a fraction of budget divided by the trip length.
In the all-fail Lisbon scenario accommodation still equals the fallback
price times the 3 days: 255 in the earlier variant, 6000 in the later. -/
theorem C8_amended_hotel_fallback :
    (∀ (s : TravelState1) (o : Oracle1), o.hotels = none
      → (hotelExec1 o s).hotels = fallbackHotels1 s.trip_request.budget)
    ∧ (∀ (s : TravelState2) (o : Oracle2), o.hotels = none
      → (hotelExec2 o s).hotels = fallbackHotels2)
    ∧ (planTrip2 lisbonReq failOracle2).expenses.accommodation = 2000 * 3
    ∧ lisbonFinal1.expenses.accommodation = 85 * 3
    ∧ planTrip1 lisbonReq failOracle1 = PlanResult1.ok lisbonFinal1 := by
  refine ⟨?_, ?_, ?_, ?_, rfl⟩
  · intro s o h
    simp [hotelExec1, h]
  · intro s o h
    simp [hotelExec2, h]
  · have h : (planTrip2 lisbonReq failOracle2).expenses.accommodation
        = round2 (accommodationCost2 fallbackHotels2 3) := rfl
    have ha : accommodationCost2 fallbackHotels2 3 = 6000 := by
      simp [accommodationCost2, avgHotelPrice2, hotelPrices2, fallbackHotels2]
      norm_num
    rw [h, ha, round2_eq _ 600000 (by norm_num) (by norm_num)]
    norm_num
  · have hfloor : (⌊(1200 : ℚ) / 14⌋ : ℤ) = 85 := Int.floor_eq_iff.mpr (by norm_num)
    have h : lisbonFinal1.expenses.accommodation
        = avgHotelPrice1 (fallbackHotels1 1200) * ((3 : ℤ) : ℚ) := rfl
    have havg : avgHotelPrice1 (fallbackHotels1 1200) = 85 := by
      simp [avgHotelPrice1, fallbackHotels1, hfloor]
    rw [h, havg]
    norm_num

/-- Witness for C8 amended: both fallbacks instantiated at the Lisbon
request, the hypotheses discharged by evaluation. -/
theorem C8_amended_hotel_fallback_witness :
    (hotelExec1 failOracle1 (initState1 lisbonReq)).hotels
        = fallbackHotels1 (initState1 lisbonReq).trip_request.budget
    ∧ (hotelExec2 failOracle2 (initState2 lisbonReq)).hotels = fallbackHotels2 :=
  ⟨C8_amended_hotel_fallback.1 _ failOracle1 rfl,
   C8_amended_hotel_fallback.2.1 _ failOracle2 rfl⟩

/-- C10: the earlier variant's currency conversion multiplies every
numeric entry of the expenses dictionary by the extracted rate - the
integer days entry included - and leaves non-numeric entries unchanged;
hence for any rate other than 1 the stored days no longer equals its
pre-conversion value (the trip length in whole days). -/
theorem C10_currency_scales_days :
    (∀ (e : Expenses1) (r : ℚ), convertNumeric r (toKV1 e) = toKV1 (scaleExpenses1 r e))
    ∧ (∀ (kv : List (String × PyVal)) (k txt : String) (r : ℚ),
        (k, PyVal.str txt) ∈ kv → (k, PyVal.str txt) ∈ convertNumeric r kv)
    ∧ (∀ (s : TravelState1) (o : Oracle1) (r : ℚ),
        pyUpper s.trip_request.currency ≠ "USD" → o.rate = some r
        → (currencyExec1 o s).expenses.days = s.expenses.days * r)
    ∧ (∀ (s : TravelState1) (o : Oracle1) (r : ℚ),
        pyUpper s.trip_request.currency ≠ "USD" → o.rate = some r
        → r ≠ 1 → s.expenses.days ≠ 0
        → (currencyExec1 o s).expenses.days ≠ s.expenses.days) := by
  refine ⟨fun e r => rfl, ?_, ?_, ?_⟩
  · intro kv k txt r h
    simpa [convertNumeric] using List.mem_map_of_mem
      (fun e : String × PyVal => match e.2 with
        | PyVal.num q => (e.1, PyVal.num (q * r))
        | v => (e.1, v)) h
  · intro s o r hc hr
    simp [currencyExec1, hc, hr, scaleExpenses1]
  · intro s o r hc hr hr1 hd heq
    have h3 : (currencyExec1 o s).expenses.days = s.expenses.days * r := by
      simp [currencyExec1, hc, hr, scaleExpenses1]
    rw [h3] at heq
    exact hr1 (mul_left_cancel₀ hd (by rw [mul_one]; exact heq))

/-- Witness for C10: a EUR-target state with three stored days and an
extracted rate of 2 - after conversion the days entry is 6, no longer
3. -/
theorem C10_currency_scales_days_witness :
    (currencyExec1 rateOracle1 c10State).expenses.days = c10State.expenses.days * 2
    ∧ (currencyExec1 rateOracle1 c10State).expenses.days ≠ c10State.expenses.days :=
  ⟨C10_currency_scales_days.2.2.1 c10State rateOracle1 2 (by decide) rfl,
   C10_currency_scales_days.2.2.2 c10State rateOracle1 2 (by decide) rfl
     (by norm_num) (by norm_num [c10State])⟩
